import Mathlib

/-!
# Verification of the PersonalBlobBot client script

Shallow embedding of `src/theblobapp/static/js/app.js`: the scroll-driven
pagination controller, the live-feed socket handlers (`connect`,
`new_blobs`) and the debounced search-input controller.

Functions that the script calls but whose bodies are not under `src/`
(`loadMoreBlobs`, `updateFeed`, `debounce`, `handleSearch`) are modelled
from the specification, as marked in their doc comments.
-/

/-- A feed item ("blob"): an opaque content record; only identity matters
for the properties proved here. -/
structure Blob where
  id : Nat
deriving Repr, DecidableEq

/-! ## Pagination controller -/

/-- Mutable state of the pagination controller.  From the script:
`let currentPage = 1; let loading = false;`.  `pending` counts pagination
fetches currently in flight (instrumentation of the environment), and
`feed` is the rendered list of items. -/
structure PagState where
  currentPage : Nat
  loading : Bool
  pending : Nat
  feed : List Blob
deriving Repr, DecidableEq

/-- Initial pagination state: `currentPage = 1`, `loading = false`, no
fetch in flight, empty feed. -/
def initPagState : PagState :=
  { currentPage := 1, loading := false, pending := 0, feed := [] }

/-- Modelled from the spec: `loadMoreBlobs` is invoked by the scroll
listener in `app.js` but its body is not under `src/`.  Spec §4.2:
"Guard: if Loading Flag is true, the trigger is a no-op"; "On trigger
(guard passed): set Loading Flag true, issue a fetch for the page
identified by the current Page Cursor".  Returns the new state together
with the list of pagination fetches issued (by page number). -/
def loadMoreBlobs (s : PagState) : PagState × List Nat :=
  if s.loading then (s, [])
  else ({ s with loading := true, pending := s.pending + 1 }, [s.currentPage])

/-- Modelled from the spec: completion of an in-flight pagination fetch,
not under `src/`.  Spec §4.2: "on completion: append returned items to
the feed, increment Page Cursor, clear Loading Flag". -/
def fetchResolve (items : List Blob) (s : PagState) : PagState :=
  { s with feed := s.feed ++ items,
           currentPage := s.currentPage + 1,
           loading := false,
           pending := s.pending - 1 }

/-- Geometry carried by a scroll event: `window.innerHeight`,
`window.scrollY`, `document.body.offsetHeight`. -/
structure ScrollEvent where
  innerHeight : Int
  scrollY : Int
  offsetHeight : Int
deriving Repr, DecidableEq

/-- The window scroll listener (`app.js` lines 6–10):
`if ((window.innerHeight + window.scrollY) >= document.body.offsetHeight - 1000) loadMoreBlobs();`.
Returns the new state, the pagination fetches issued, and the number of
times `loadMoreBlobs` was invoked by this event. -/
def scrollListener (e : ScrollEvent) (s : PagState) : PagState × List Nat × Nat :=
  if e.innerHeight + e.scrollY ≥ e.offsetHeight - 1000 then
    ((loadMoreBlobs s).1, (loadMoreBlobs s).2, 1)
  else (s, [], 0)

/-- Events the pagination controller reacts to: a scroll event, or the
resolution of an in-flight fetch returning a page of items. -/
inductive PagEvent where
  | scroll (e : ScrollEvent)
  | resolve (items : List Blob)
deriving Repr, DecidableEq

/-- One dispatch step of the (single-threaded, event-driven) pagination
controller: the new state and the pagination fetches issued by the step. -/
def pagStep : PagEvent → PagState → PagState × List Nat
  | PagEvent.scroll e, s => ((scrollListener e s).1, (scrollListener e s).2.1)
  | PagEvent.resolve items, s => (fetchResolve items s, [])

/-- Run a sequence of events, collecting every pagination fetch issued. -/
def pagRun : List PagEvent → PagState → PagState × List Nat
  | [], s => (s, [])
  | ev :: evs, s =>
      ((pagRun evs (pagStep ev s).1).1,
       (pagStep ev s).2 ++ (pagRun evs (pagStep ev s).1).2)

/-- The loading flag tracks the in-flight fetch exactly: `pending` is 1
when `loading` is set and 0 otherwise. -/
def pagInvariant (s : PagState) : Prop :=
  s.pending = if s.loading then 1 else 0

instance (s : PagState) : Decidable (pagInvariant s) := by
  unfold pagInvariant; infer_instance

/-! ## Live feed channel -/

/-- Fire count of an event-loop `setInterval` callback with period
`interval` ms, at `t` ms after registration: it fires at `interval`,
`2*interval`, …, so `t / interval` times. -/
def setIntervalFireCount (interval t : Nat) : Nat := t / interval

/-- From the `connect` handler (`app.js` lines 13–18):
`setInterval(() => socket.emit('request_update'), 30000)`.  Number of
`request_update` signals emitted by `t` ms after connection. -/
def requestUpdatesSent (t : Nat) : Nat := setIntervalFireCount 30000 t

/-- Modelled from the spec: `updateFeed` is invoked by the `new_blobs`
handler but its body is not under `src/`.  Spec §4.1: "invokes the
feed-update routine to prepend/render them" — the received items are
prepended to the feed in the order received. -/
def updateFeed (blobs : List Blob) (feed : List Blob) : List Blob :=
  blobs ++ feed

/-- The `new_blobs` handler (`app.js` lines 20–24):
`if (data.blobs.length > 0) updateFeed(data.blobs);`.  Returns the new
feed together with the argument `updateFeed` was invoked with (`none`
when it was not invoked). -/
def onNewBlobs (blobs : List Blob) (feed : List Blob) :
    List Blob × Option (List Blob) :=
  if blobs.length > 0 then (updateFeed blobs feed, some blobs)
  else (feed, none)

/-- The `new_blobs` handler on a raw payload whose `blobs` field may be
absent (`none` models a payload where `data.blobs` is `undefined`): the
guard evaluates `data.blobs.length`, and reading `length` of `undefined`
throws a `TypeError` in JavaScript, modelled as `Except.error`. -/
def onNewBlobsEvent (blobsField : Option (List Blob)) (feed : List Blob) :
    Except String (List Blob × Option (List Blob)) :=
  match blobsField with
  | none => Except.error "TypeError: data.blobs is undefined"
  | some blobs => Except.ok (onNewBlobs blobs feed)

/-! ## Search input controller -/

/-- Initialization of the search controller (`app.js` lines 27–30):
`const searchInput = document.getElementById('search');
if (searchInput) searchInput.addEventListener('input', debounce(handleSearch, 500));`.
The argument is the result of `getElementById` (`none` models `null`);
the result is the list of listener registrations performed, as pairs of
the event type and the debounce delay of the registered handler. -/
def initSearchListeners (searchInput : Option Unit) : List (String × Nat) :=
  match searchInput with
  | some _ => [("input", 500)]
  | none => []

/-- Modelled from the spec: `debounce` is applied to `handleSearch` in
`app.js` but its body is not under `src/`.  Spec §4.3: "a search request
fires only after input has been quiet for `delay` milliseconds since the
last keystroke; any keystroke within the window restarts the timer".
Input: keystrokes as pairs (arrival time in ms, text value at that
keystroke), in arrival order.  Output: the debounced handler calls as
pairs (fire time, text value passed). -/
def debouncedCalls (delay : Nat) : List (Nat × String) → List (Nat × String)
  | [] => []
  | [k] => [(k.1 + delay, k.2)]
  | k :: k2 :: rest =>
      if k2.1 < k.1 + delay then debouncedCalls delay (k2 :: rest)
      else (k.1 + delay, k.2) :: debouncedCalls delay (k2 :: rest)

/-- A debounced handler fires at least once on a nonempty keystroke
sequence. -/
lemma debouncedCalls_length_pos (delay : Nat) :
    ∀ (ks : List (Nat × String)), ks ≠ [] →
      1 ≤ (debouncedCalls delay ks).length
  | [], h => absurd rfl h
  | [_], _ => by simp [debouncedCalls]
  | k :: k2 :: rest, _ => by
      have ih := debouncedCalls_length_pos delay (k2 :: rest) (by simp)
      by_cases h12 : k2.1 < k.1 + delay
      · simpa [debouncedCalls, h12] using ih
      · simp [debouncedCalls, h12]

/-- Adding an earlier keystroke never decreases the number of debounced
fires. -/
lemma debouncedCalls_length_cons (delay : Nat) (k : Nat × String) :
    ∀ (ks : List (Nat × String)),
      (debouncedCalls delay ks).length ≤ (debouncedCalls delay (k :: ks)).length
  | [] => by simp [debouncedCalls]
  | k2 :: rest => by
      by_cases h12 : k2.1 < k.1 + delay
      · simp [debouncedCalls, h12]
      · simp [debouncedCalls, h12]

/-! ## Claim theorems -/

/-- C1: while a pagination fetch is in flight (`loading = true`), any
sequence of scroll events issues zero additional pagination fetches and
leaves the state unchanged; and every dispatch step preserves the
loading/pending correspondence, so at most one pagination fetch is
pending at any time. -/
theorem pagination_single_flight :
    (∀ (evs : List PagEvent) (s : PagState), s.loading = true →
        (∀ ev ∈ evs, ∃ e, ev = PagEvent.scroll e) →
        pagRun evs s = (s, [])) ∧
    (∀ (ev : PagEvent) (s : PagState), pagInvariant s →
        pagInvariant (pagStep ev s).1 ∧ (pagStep ev s).1.pending ≤ 1) := by
  constructor
  · intro evs
    induction evs with
    | nil => intro s _ _; rfl
    | cons ev evs ih =>
        intro s hload hscroll
        obtain ⟨e, rfl⟩ := hscroll ev (List.mem_cons_self _ _)
        have hstep : pagStep (PagEvent.scroll e) s = (s, []) := by
          by_cases htrig : e.innerHeight + e.scrollY ≥ e.offsetHeight - 1000 <;>
            simp [pagStep, scrollListener, loadMoreBlobs, hload, htrig]
        have htail := ih s hload (fun ev hm => hscroll ev (List.mem_cons_of_mem _ hm))
        simp only [pagRun, hstep, htail, List.nil_append]
  · intro ev s hinv
    cases ev with
    | scroll e =>
        by_cases htrig : e.innerHeight + e.scrollY ≥ e.offsetHeight - 1000
        · by_cases hload : s.loading
          · have hpend : s.pending = 1 := by simpa [pagInvariant, hload] using hinv
            constructor
            · simpa [pagStep, scrollListener, loadMoreBlobs, htrig, hload] using hinv
            · simp [pagStep, scrollListener, loadMoreBlobs, htrig, hload, hpend]
          · have hpend : s.pending = 0 := by simpa [pagInvariant, hload] using hinv
            constructor
            · simp [pagStep, scrollListener, loadMoreBlobs, htrig, hload, pagInvariant, hpend]
            · simp [pagStep, scrollListener, loadMoreBlobs, htrig, hload, hpend]
        · constructor
          · simpa [pagStep, scrollListener, htrig] using hinv
          · by_cases hload : s.loading
            · have hpend : s.pending = 1 := by simpa [pagInvariant, hload] using hinv
              simp [pagStep, scrollListener, htrig, hpend]
            · have hpend : s.pending = 0 := by simpa [pagInvariant, hload] using hinv
              simp [pagStep, scrollListener, htrig, hpend]
    | resolve items =>
        have hle : s.pending ≤ 1 := by
          by_cases hload : s.loading <;>
            · have := hinv
              simp [pagInvariant, hload] at this
              omega
        constructor
        · have : s.pending - 1 = 0 := by omega
          simp [pagStep, fetchResolve, pagInvariant, this]
        · have : s.pending - 1 = 0 := by omega
          simp [pagStep, fetchResolve, this]

/-- Witness for C1 at a concrete input: from a loading state, a scroll
event past the threshold issues no fetch and changes nothing. -/
theorem pagination_single_flight_witness :
    pagRun [PagEvent.scroll ⟨800, 5000, 6000⟩]
        ⟨2, true, 1, []⟩ = (⟨2, true, 1, []⟩, []) :=
  pagination_single_flight.1 [PagEvent.scroll ⟨800, 5000, 6000⟩]
    ⟨2, true, 1, []⟩ rfl
    (by intro ev hm
        rw [List.mem_singleton] at hm
        exact ⟨⟨800, 5000, 6000⟩, hm⟩)

/-- C2: the scroll listener invokes `loadMoreBlobs` exactly when
`innerHeight + scrollY ≥ offsetHeight - 1000`, i.e. when
viewport_height + scroll_offset ≥ document_height − 1000. -/
theorem scroll_trigger_iff (e : ScrollEvent) (s : PagState) :
    (scrollListener e s).2.2 = 1 ↔
      e.innerHeight + e.scrollY ≥ e.offsetHeight - 1000 := by
  by_cases h : e.innerHeight + e.scrollY ≥ e.offsetHeight - 1000
  · simp [scrollListener, h]
  · simp [scrollListener, h]

/-- Witness for C2 at a concrete input: 800 + 5000 ≥ 6000 − 1000, so the
listener invokes `loadMoreBlobs` exactly once. -/
theorem scroll_trigger_iff_witness :
    (scrollListener ⟨800, 5000, 6000⟩ initPagState).2.2 = 1 :=
  (scroll_trigger_iff ⟨800, 5000, 6000⟩ initPagState).mpr (by decide)

/-- C3: the `connect` handler starts a fixed 30-second recurring timer
emitting `request_update`: exactly one signal has been sent 30 s after
connecting, exactly two after 60 s, and every further 30 s adds exactly
one more. -/
theorem request_update_schedule :
    requestUpdatesSent 30000 = 1 ∧ requestUpdatesSent 60000 = 2 ∧
    ∀ t : Nat, requestUpdatesSent (t + 30000) = requestUpdatesSent t + 1 := by
  refine ⟨rfl, rfl, fun t => ?_⟩
  show (t + 30000) / 30000 = t / 30000 + 1
  omega

/-- C4: a `new_blobs` event with an empty `blobs` payload performs no
feed mutation and does not invoke `updateFeed` — a no-op, not an error. -/
theorem new_blobs_empty_noop (feed : List Blob) :
    onNewBlobs [] feed = (feed, none) := rfl

/-- C5: a `new_blobs` event with a non-empty payload invokes `updateFeed`
with exactly that sequence, and the received items are rendered at the
front of the feed in the order received. -/
theorem new_blobs_nonempty_renders (blobs feed : List Blob)
    (h : blobs ≠ []) :
    onNewBlobs blobs feed = (blobs ++ feed, some blobs) := by
  have hlen : blobs.length > 0 := List.length_pos.mpr h
  simp [onNewBlobs, updateFeed, hlen]

/-- Witness for C5 at a concrete input: payload [A, B] is passed to
`updateFeed` unchanged and is rendered as A then B at the front. -/
theorem new_blobs_nonempty_renders_witness :
    onNewBlobs [⟨1⟩, ⟨2⟩] [⟨3⟩] = ([⟨1⟩, ⟨2⟩, ⟨3⟩], some [⟨1⟩, ⟨2⟩]) :=
  new_blobs_nonempty_renders [⟨1⟩, ⟨2⟩] [⟨3⟩] (by decide)

/-- C6: for keystrokes arriving strictly less than 500 ms apart, exactly
one search request fires: at the final keystroke's time plus 500 ms, with
the text present at the final keystroke.  Stated for an arbitrary
nonempty sequence written as `ks ++ [k]`. -/
theorem debounce_rapid_typing :
    ∀ (ks : List (Nat × String)) (k : Nat × String),
      List.Chain' (fun a b => b.1 < a.1 + 500) (ks ++ [k]) →
      debouncedCalls 500 (ks ++ [k]) = [(k.1 + 500, k.2)]
  | [], k, _ => rfl
  | [a], k, hfast => by
      simp only [List.cons_append, List.nil_append] at hfast
      have h : k.1 < a.1 + 500 := (List.chain'_cons.mp hfast).1
      simp [debouncedCalls, h]
  | a :: b :: ks, k, hfast => by
      simp only [List.cons_append] at hfast ⊢
      have h : b.1 < a.1 + 500 := (List.chain'_cons.mp hfast).1
      have ih := debounce_rapid_typing (b :: ks) k (List.chain'_cons.mp hfast).2
      simp only [List.cons_append] at ih
      simp [debouncedCalls, h, ih]

/-- Witness for C6 at a concrete input: three keystrokes 100 ms apart
yield exactly one request, 500 ms after the last, with the final text. -/
theorem debounce_rapid_typing_witness :
    debouncedCalls 500 [(0, "a"), (100, "ab"), (200, "abc")] = [(700, "abc")] :=
  debounce_rapid_typing [(0, "a"), (100, "ab")] (200, "abc")
    (List.Chain.cons (by decide) (List.Chain.cons (by decide) List.Chain.nil))

/-- C7 counterexample: the keystroke sequence (0,"a"), (500,"b"),
(1000,"c") has a gap of at least 500 ms between consecutive keystrokes
(500 − 0 ≥ 500), yet three search requests fire, not two. -/
theorem debounce_gap_counterexample :
    (0 : Nat) + 500 ≤ 500 ∧
    (debouncedCalls 500 [(0, "a"), (500, "b"), (1000, "c")]).length = 3 :=
  ⟨by omega, rfl⟩

/-- C7 (amended): for every keystroke sequence containing a gap of at
least 500 ms between two consecutive keystrokes, at least two separate
search requests fire (one per settled quiet period). -/
theorem debounce_gap_two_requests (pre post : List (Nat × String))
    (a b : Nat × String) (hgap : a.1 + 500 ≤ b.1) :
    2 ≤ (debouncedCalls 500 (pre ++ a :: b :: post)).length := by
  induction pre with
  | nil =>
      have hn : ¬ b.1 < a.1 + 500 := by omega
      have hpos := debouncedCalls_length_pos 500 (b :: post) (by simp)
      rw [List.nil_append,
        show debouncedCalls 500 (a :: b :: post) =
            (a.1 + 500, a.2) :: debouncedCalls 500 (b :: post) from by
          simp [debouncedCalls, hn]]
      simp only [List.length_cons]
      omega
  | cons p pre ih =>
      calc 2 ≤ (debouncedCalls 500 (pre ++ a :: b :: post)).length := ih
        _ ≤ (debouncedCalls 500 (p :: (pre ++ a :: b :: post))).length :=
            debouncedCalls_length_cons 500 p _
        _ = (debouncedCalls 500 ((p :: pre) ++ a :: b :: post)).length := by
            simp

/-- Witness for the amended C7 at a concrete input: two keystrokes 600 ms
apart yield at least two requests. -/
theorem debounce_gap_two_requests_witness :
    2 ≤ (debouncedCalls 500 [(0, "a"), (600, "b")]).length :=
  debounce_gap_two_requests [] [] (0, "a") (600, "b") (by omega)

/-- C8: when the search input element is absent (`getElementById`
returns null), initialization registers no listener; the handler is a
total function on this input, so no error is raised. -/
theorem search_absent_no_activation : initSearchListeners none = [] := rfl

/-- C9 counterexample: with the search element present, the single
registered listener is for the 'input' event type with the 500 ms
debounced handler, not for 'change'. -/
theorem search_change_event_counterexample :
    initSearchListeners (some ()) ≠ [("change", 500)] := by
  decide

/-- C9 (amended): the controller binds its 500 ms–debounced handler to
the input field's 'input' events. -/
theorem search_binds_input_event :
    initSearchListeners (some ()) = [("input", 500)] := rfl

/-- C10: the `new_blobs` handler is total exactly on payloads whose
`blobs` field is present: on a well-formed payload it returns the
handler's result, and when `data.blobs` is absent the access to
`data.blobs.length` throws a TypeError, so the documented no-op holds
only for well-formed payloads. -/
theorem new_blobs_total_only_wellformed :
    (∀ (blobs feed : List Blob),
        onNewBlobsEvent (some blobs) feed = Except.ok (onNewBlobs blobs feed)) ∧
    (∀ feed : List Blob,
        onNewBlobsEvent none feed =
          Except.error "TypeError: data.blobs is undefined") :=
  ⟨fun _ _ => rfl, fun _ => rfl⟩
